import Mathlib

/-!
Verification of the diet-management web application (`web/urls.py`).

The embedding models the request handlers as pure functions over an
explicit per-user store.  Python floats are modelled as exact rationals,
Python `round` as round-half-to-even, and Python's unbound-local-variable
errors (`NameError` / `AttributeError`) and Flask's `url_for` build
errors as explicit error results.
-/

namespace DietApp

/-- Python `round` on a rational: nearest integer, ties to even. -/
def pyRound (q : ℚ) : ℤ :=
  let f : ℤ := ⌊q⌋
  let r : ℚ := q - f
  if r < 1/2 then f
  else if 1/2 < r then f + 1
  else if f % 2 = 0 then f else f + 1

/-- The biometric profile fields of a `User` row used by the calculator. -/
structure Profile where
  gender : String
  weight : ℚ
  height : ℚ
  age : ℚ
  activity_level : String
  goal : String
deriving DecidableEq

/-- `calculate_calories` from `web/urls.py`.  Each chain of `if`/`elif`
branches in the Python source leaves its local variable (`BMR`, `AMR`,
`calories`) unbound when no branch matches; using an unbound local raises
`NameError`, modelled here by `none`. -/
def calculate_calories (u : Profile) : Option ℤ :=
  let BMR : Option ℚ :=
    if u.gender = "Male" then
      some (66.47 + (13.75 * u.weight) + (5.003 * u.height) - (6.755 * u.age))
    else if u.gender = "Female" then
      some (655.1 + (9.563 * u.weight) + (1.85 * u.height) - (4.676 * u.age))
    else none
  let AMR : Option ℚ :=
    if u.activity_level = "Sedentary" then BMR.map (· * 1.2)
    else if u.activity_level = "Lightly Active" then BMR.map (· * 1.375)
    else if u.activity_level = "Moderately Active" then BMR.map (· * 1.55)
    else if u.activity_level = "Very Active" then BMR.map (· * 1.725)
    else if u.activity_level = "Extra Active" then BMR.map (· * 1.9)
    else none
  let calories : Option ℚ :=
    if u.goal = "Lose Weight" then AMR.map (· - 500)
    else if u.goal = "Maintain Weight" then AMR
    else if u.goal = "Gain Weight" then AMR.map (· + 500)
    else none
  calories.map pyRound

/-- Spec-side BMR formula (section 4.1 step 1 of the spec), for the
refinement statement of the calculator claim. -/
def specBMR (gender : String) (weight height age : ℚ) : ℚ :=
  if gender = "Male" then 66.47 + 13.75 * weight + 5.003 * height - 6.755 * age
  else 655.1 + 9.563 * weight + 1.85 * height - 4.676 * age

/-- Spec-side activity multiplier (section 4.1 step 2 of the spec). -/
def specMultiplier (activity_level : String) : ℚ :=
  if activity_level = "Sedentary" then 1.2
  else if activity_level = "Lightly Active" then 1.375
  else if activity_level = "Moderately Active" then 1.55
  else if activity_level = "Very Active" then 1.725
  else 1.9

/-- Spec-side goal adjustment (section 4.1 step 3 of the spec). -/
def specAdjustment (goal : String) : ℚ :=
  if goal = "Lose Weight" then -500
  else if goal = "Maintain Weight" then 0
  else 500

/-- The three gender values × five activity levels × three goals the
source enumerates. -/
def validGenders : List String := ["Male", "Female"]

def validActivityLevels : List String :=
  ["Sedentary", "Lightly Active", "Moderately Active", "Very Active", "Extra Active"]

def validGoals : List String := ["Lose Weight", "Maintain Weight", "Gain Weight"]

/-! ## The per-user store and the request handlers -/

/-- A `UserCurrentDietMeals` row: diet id, meal id, serving size. -/
structure DietMealRow where
  user_current_diet_id : ℕ
  meal_id : ℕ
  serving_size : ℚ
deriving DecidableEq

/-- A timestamped sample row (`UserWeightOverTime` / `UserCaloriesOverTime`).
`ord` is the `created_at` instant measured in days on a linear axis;
`month`/`day` are what `strftime` of the same instant yields for `%m`/`%d`. -/
structure Sample where
  ord : ℚ
  month : ℕ
  day : ℕ
  value : ℚ
deriving DecidableEq

/-- The rows of the relational store belonging to one user.  Lists keep
insertion order, which is the order the ORM returns rows in. -/
structure Store where
  userCalories : List ℤ
  diets : List ℕ
  dietMeals : List DietMealRow
  dietCalories : List (ℕ × ℚ)
  caloriesLog : List Sample
  weightLog : List Sample
  nextId : ℕ
deriving DecidableEq

def Store.init : Store := ⟨[], [], [], [], [], [], 0⟩

/-- What a handler returns: a redirect, a plain page, a chart page with its
parallel label/value sequences, or an uncaught exception. -/
inductive HResult where
  | redirect (endpoint : String) (flashes : List String)
  | render (page : String) (flashes : List String)
  | chart (page : String) (labels : List (ℕ × ℕ)) (values : List ℚ)
  | error (msg : String)
deriving DecidableEq

/-- The endpoints registered by `@app.route` in `web/urls.py` (Flask names
an endpoint after the view function). -/
def knownEndpoints : List String :=
  ["index", "register", "login", "logout", "finish_account", "account",
   "get_calories", "get_meals", "show_meals", "save_calories",
   "show_calories", "show_weight", "reset_request", "reset_token"]

/-- Flask `url_for`: raises `BuildError` (here `none`) on an unknown
endpoint name. -/
def url_for (endpoint : String) : Option String :=
  if knownEndpoints.contains endpoint then some endpoint else none

/-- The `/get-calories` handler: recompute the target, delete any prior
`UserCalories` rows for the user, insert the new row. -/
def get_calories_route (calories : ℤ) (s : Store) : HResult × Store :=
  let rows := if (s.userCalories.head?).isSome then [] else s.userCalories
  (.render "get_calories" [], { s with userCalories := rows ++ [calories] })

/-- One meal with its calories, as returned by the external selector. -/
structure MealRec where
  id : ℕ
  calories : ℚ
deriving DecidableEq

/-- A (meal, serving) pair for one slot. -/
structure ChosenMeal where
  meal : MealRec
  serving : ℚ
deriving DecidableEq

/-- The triple the external `choose_meals_for_user` returns. -/
structure MealChoice where
  breakfast : ChosenMeal
  lunch : ChosenMeal
  dinner : ChosenMeal
deriving DecidableEq

/-- The `/get-meals` handler: redirect to `/get-calories` when no target
exists; otherwise replace the current diet (delete child rows of the
existing diet, or create a fresh diet row), insert the three meal rows and
the new `DietCalories` total. -/
def get_meals_route (ch : MealChoice) (s : Store) : HResult × Store :=
  if (s.userCalories.head?).isNone then
    (.redirect "get_calories" [], s)
  else
    let (dietId, s1) :=
      match s.diets.head? with
      | some d =>
        (d, { s with
                dietMeals := s.dietMeals.filter (fun r => r.user_current_diet_id ≠ d),
                dietCalories := s.dietCalories.filter (fun r => r.1 ≠ d) })
      | none =>
        (s.nextId, { s with diets := s.diets ++ [s.nextId], nextId := s.nextId + 1 })
    let newMeals : List DietMealRow :=
      [⟨dietId, ch.breakfast.meal.id, ch.breakfast.serving⟩,
       ⟨dietId, ch.lunch.meal.id, ch.lunch.serving⟩,
       ⟨dietId, ch.dinner.meal.id, ch.dinner.serving⟩]
    let total : ℚ :=
      ch.breakfast.meal.calories * ch.breakfast.serving
        + ch.lunch.meal.calories * ch.lunch.serving
        + ch.dinner.meal.calories * ch.dinner.serving
    (.redirect "show_meals" [],
     { s1 with
         dietMeals := s1.dietMeals ++ newMeals,
         dietCalories := s1.dietCalories ++ [(dietId, total)] })

/-- The `/save-meal` handler: reads the current diet without a guard, so a
user with no `UserCurrentDiet` row hits `None.id` (`AttributeError`);
likewise `None.calories` when the diet has no `DietCalories` row.
Otherwise it appends one `UserCaloriesOverTime` sample taken `now`. -/
def save_calories_route (nowOrd : ℚ) (nowMonth nowDay : ℕ) (s : Store) :
    HResult × Store :=
  match s.diets.head? with
  | none => (.error "AttributeError: NoneType object has no attribute id", s)
  | some d =>
    match (s.dietCalories.filter (fun r => r.1 = d)).head? with
    | none => (.error "AttributeError: NoneType object has no attribute calories", s)
    | some (_, c) =>
      (.redirect "index" ["You chose a great meal plan for today!"],
       { s with caloriesLog := s.caloriesLog ++ [⟨nowOrd, nowMonth, nowDay, c⟩] })

/-- Window widths, in days, of the calorie chart (`show_calories`): the
`time_frame is None` default is 1 week; a `time_frame` outside the four
named windows leaves the local `calories` unbound (`NameError`). -/
def caloriesWindowDays : Option String → Option ℚ
  | none => some 7
  | some tf =>
    if tf = "1 Week" then some 7
    else if tf = "2 Weeks" then some 14
    else if tf = "3 Weeks" then some 21
    else if tf = "1 Month" then some 30
    else none

/-- Window widths, in days, of the weight chart (`show_weight`): the
default is 1 month, and three longer windows exist. -/
def weightWindowDays : Option String → Option ℚ
  | none => some 30
  | some tf =>
    if tf = "1 Week" then some 7
    else if tf = "2 Weeks" then some 14
    else if tf = "3 Weeks" then some 21
    else if tf = "1 Month" then some 30
    else if tf = "3 Months" then some 90
    else if tf = "6 Months" then some 180
    else if tf = "1 Year" then some 365
    else none

/-- The `/show-calories` handler.  With no calorie target it flashes and
calls `url_for` on the literal `show-meals`, and with an empty result it
flashes and calls `url_for` on the literal `show-calories`; neither is a
registered endpoint, so both raise `BuildError`. -/
def show_calories_route (time_frame : Option String) (now : ℚ) (s : Store) :
    HResult × Store :=
  if (s.userCalories.head?).isNone then
    (match url_for "show-meals" with
     | some t => .redirect t ["Please choose your meals first"]
     | none => .error "BuildError: could not build url for endpoint show-meals", s)
  else
    match caloriesWindowDays time_frame with
    | none => (.error "NameError: name calories is not defined", s)
    | some days =>
      let rows := s.caloriesLog.filter (fun r => now - days ≤ r.ord)
      let labels := rows.map (fun r => (r.month, r.day))
      let values := rows.map (fun r => r.value)
      if values.length = 0 then
        (match url_for "show-calories" with
         | some t => .redirect t ["You have not entered any calories in this period"]
         | none => .error "BuildError: could not build url for endpoint show-calories", s)
      else
        (.chart "calories_over_time" labels values, s)

/-- The `/show-weight` handler: no target guard and no empty-result guard;
an unnamed `time_frame` outside the seven windows leaves `weights`
unbound (`NameError`). -/
def show_weight_route (time_frame : Option String) (now : ℚ) (s : Store) :
    HResult × Store :=
  match weightWindowDays time_frame with
  | none => (.error "NameError: name weights is not defined", s)
  | some days =>
    let rows := s.weightLog.filter (fun r => now - days ≤ r.ord)
    (.chart "weight_over_time"
       (rows.map (fun r => (r.month, r.day))) (rows.map (fun r => r.value)), s)

/-- The operations of the diet-replacement state machine: the two handlers
that touch `UserCalories` / `UserCurrentDiet` rows. -/
inductive Op where
  | getCalories (calories : ℤ)
  | getMeals (ch : MealChoice)

def runOp (s : Store) : Op → Store
  | .getCalories c => (get_calories_route c s).2
  | .getMeals ch => (get_meals_route ch s).2

def runOps (ops : List Op) (s : Store) : Store :=
  ops.foldl runOp s

/-! ## The `/account` handler -/

/-- The mutable `User` columns touched by the `/account` handler.  Biometric
fields are `Option`s because they are `NULL` until profile completion. -/
structure UserRec where
  name : String
  email : String
  image_file : String
  height : Option ℚ
  weight : Option ℚ
  age : Option ℚ
  goal : Option String
  activity_level : Option String
  gender : Option String
deriving DecidableEq

/-- A validated `UpdateAccountForm` submission. -/
structure AccountForm where
  name : String
  email : String
  picture : Option String
  height : ℚ
  weight : ℚ
  age : ℚ
  goal : String
  activity_level : String
  gender : String
deriving DecidableEq

/-- The POST branch of the `/account` handler: update every profile field
from the form, and append a `UserWeightOverTime` row exactly when the
submitted weight differs from the stored weight (the comparison happens
before the assignment in the source). -/
def account_post (f : AccountForm) (nowOrd : ℚ) (nowMonth nowDay : ℕ)
    (u : UserRec) (weightLog : List Sample) : UserRec × List Sample :=
  let u1 : UserRec :=
    { u with
        name := f.name, email := f.email,
        image_file := match f.picture with | some p => p | none => u.image_file }
  let weight_changed := u.weight ≠ some f.weight
  let u2 : UserRec :=
    { u1 with
        height := some f.height, weight := some f.weight, age := some f.age,
        goal := some f.goal, activity_level := some f.activity_level,
        gender := some f.gender }
  if weight_changed then
    (u2, weightLog ++ [⟨nowOrd, nowMonth, nowDay, f.weight⟩])
  else
    (u2, weightLog)

/-! ## The password-reset handler -/

/-- A credential row: user id and hashed password. -/
structure Credential where
  id : ℕ
  password : String
deriving DecidableEq

/-- The `/reset-password/<token>` handler.  `verify` abstracts
`User.verify_reset_token` (signature/expiry check by the external
serializer), returning the user id or `none`. -/
def reset_token_route (verify : String → Option ℕ) (authed : Bool)
    (token : String) (form_valid : Bool) (new_hash : String)
    (users : List Credential) : HResult × List Credential :=
  if authed then (.redirect "index" [], users)
  else
    match verify token with
    | none =>
      (match url_for "reset_request" with
       | some t => .redirect t ["That is an invalid or expired token"]
       | none => .error "BuildError: could not build url for endpoint reset_request",
       users)
    | some uid =>
      if form_valid then
        (.redirect "login" ["Your password has been updated! You are now able to log in"],
         users.map (fun c => if c.id = uid then { c with password := new_hash } else c))
      else
        (.render "reset_token" [], users)

/-- The total calories `/get-meals` stores: sum over the three slots of
meal calories times serving size. -/
def dietTotal (ch : MealChoice) : ℚ :=
  ch.breakfast.meal.calories * ch.breakfast.serving
    + ch.lunch.meal.calories * ch.lunch.serving
    + ch.dinner.meal.calories * ch.dinner.serving

/-- The store invariant of the diet tables: at most one `UserCalories`
row; no diet rows, or exactly one diet row whose id owns exactly three
`UserCurrentDietMeals` rows and exactly one `DietCalories` row. -/
def DietInv (s : Store) : Prop :=
  s.userCalories.length ≤ 1 ∧
  match s.diets with
  | [] => s.dietMeals = [] ∧ s.dietCalories = []
  | [d] =>
    s.dietMeals.length = 3 ∧ (∀ r ∈ s.dietMeals, r.user_current_diet_id = d) ∧
    s.dietCalories.length = 1 ∧ (∀ p ∈ s.dietCalories, p.1 = d)
  | _ :: _ :: _ => False

end DietApp

namespace DietApp

/-! ## Theorems -/

/-- C1: for every profile whose gender, activity level and goal lie in the
enumerated sets, `calculate_calories` returns the rounded value of
BMR × activity multiplier + goal adjustment, with the BMR constants,
multipliers and adjustments of the specification. -/
theorem calculate_calories_spec (u : Profile)
    (hg : u.gender ∈ validGenders)
    (ha : u.activity_level ∈ validActivityLevels)
    (hgl : u.goal ∈ validGoals) :
    calculate_calories u =
      some (pyRound (specBMR u.gender u.weight u.height u.age *
        specMultiplier u.activity_level + specAdjustment u.goal)) := by
  simp only [validGenders, validActivityLevels, validGoals, List.mem_cons,
    List.not_mem_nil, or_false] at hg ha hgl
  rcases hg with hg | hg <;> rcases ha with ha | ha | ha | ha | ha <;>
    rcases hgl with hgl | hgl | hgl <;>
      simp [calculate_calories, specBMR, specMultiplier, specAdjustment,
        hg, ha, hgl, sub_eq_add_neg]

/-- Witness for C1 at a concrete male profile. -/
theorem calculate_calories_spec_witness :
    calculate_calories ⟨"Male", 70, 175, 30, "Moderately Active", "Maintain Weight"⟩ =
      some (pyRound (specBMR "Male" 70 175 30 *
        specMultiplier "Moderately Active" + specAdjustment "Maintain Weight")) :=
  calculate_calories_spec _ (by decide) (by decide) (by decide)

/-- C2: the two worked examples of the specification: the male profile
(70 kg, 175 cm, 30 y, Moderately Active, Maintain Weight) yields 2638
calories, and the female profile (same biometrics, Sedentary, Lose
Weight) yields 1310. -/
theorem calculate_calories_examples :
    calculate_calories ⟨"Male", 70, 175, 30, "Moderately Active", "Maintain Weight"⟩ =
      some 2638 ∧
    calculate_calories ⟨"Female", 70, 175, 30, "Sedentary", "Lose Weight"⟩ =
      some 1310 := by
  constructor <;>
    · simp only [calculate_calories, String.reduceEq, reduceIte]
      norm_num [pyRound]

/-- C9: under the precondition that gender, activity level and goal lie in
their enumerated sets the calculator always produces a value, and outside
it (a gender not in the set, with valid remaining fields) the source
reaches a read of the unbound local `BMR`, so its behaviour is undefined
(`NameError`, modelled as `none`). -/
theorem calculate_calories_totality :
    (∀ u : Profile, u.gender ∈ validGenders → u.activity_level ∈ validActivityLevels →
      u.goal ∈ validGoals → ∃ n : ℤ, calculate_calories u = some n) ∧
    calculate_calories ⟨"Nonbinary", 70, 175, 30, "Sedentary", "Lose Weight"⟩ = none := by
  constructor
  · intro u hg ha hgl
    simp only [validGenders, validActivityLevels, validGoals, List.mem_cons,
      List.not_mem_nil, or_false] at hg ha hgl
    rcases hg with hg | hg <;> rcases ha with ha | ha | ha | ha | ha <;>
      rcases hgl with hgl | hgl | hgl <;>
        simp [calculate_calories, hg, ha, hgl]
  · decide

/-- Witness for C9: a concrete in-range profile produces a value, and the
out-of-range profile produces none. -/
theorem calculate_calories_totality_witness :
    (∃ n : ℤ, calculate_calories ⟨"Female", 60, 160, 40, "Very Active", "Gain Weight"⟩ =
      some n) ∧
    calculate_calories ⟨"Nonbinary", 70, 175, 30, "Sedentary", "Lose Weight"⟩ = none :=
  ⟨calculate_calories_totality.1 _ (by decide) (by decide) (by decide),
   calculate_calories_totality.2⟩

theorem dietInv_init : DietInv Store.init := by
  exact ⟨by decide, by decide, by decide⟩

theorem head?_not_isNone {α : Type} {l : List α} (h : l ≠ []) :
    ¬(l.head?).isNone = true := by
  cases hu : l with
  | nil => exact absurd hu h
  | cons a t => simp

theorem get_calories_userCalories (c : ℤ) (s : Store) :
    (get_calories_route c s).2.userCalories = [c] := by
  by_cases hs : (s.userCalories.head?).isSome
  · simp [get_calories_route, hs]
  · have hnil : s.userCalories = [] := by
      cases hu : s.userCalories with
      | nil => rfl
      | cons a t => rw [hu] at hs; simp at hs
    simp [get_calories_route, hs, hnil]

theorem get_calories_result (c : ℤ) (s : Store) :
    (get_calories_route c s).2 = { s with userCalories := [c] } := by
  by_cases hs : (s.userCalories.head?).isSome
  · simp [get_calories_route, hs]
  · have hnil : s.userCalories = [] := by
      cases hu : s.userCalories with
      | nil => rfl
      | cons a t => rw [hu] at hs; simp at hs
    simp [get_calories_route, hs, hnil]

theorem dietInv_getCalories (c : ℤ) (s : Store) (h : DietInv s) :
    DietInv (get_calories_route c s).2 := by
  rw [get_calories_result]
  exact ⟨by simp, h.2⟩

theorem getMeals_userCalories (ch : MealChoice) (s : Store) :
    (get_meals_route ch s).2.userCalories = s.userCalories := by
  by_cases ht : (s.userCalories.head?).isNone
  · simp [get_meals_route, ht]
  · cases hd : s.diets.head? <;> simp [get_meals_route, ht, hd]

theorem getMeals_result_nodiet (ch : MealChoice) (s : Store)
    (ht : ¬(s.userCalories.head?).isNone = true) (hds : s.diets = [])
    (hm : s.dietMeals = []) (hc : s.dietCalories = []) :
    (get_meals_route ch s).2 =
      { s with
          diets := [s.nextId],
          dietMeals :=
            [⟨s.nextId, ch.breakfast.meal.id, ch.breakfast.serving⟩,
             ⟨s.nextId, ch.lunch.meal.id, ch.lunch.serving⟩,
             ⟨s.nextId, ch.dinner.meal.id, ch.dinner.serving⟩],
          dietCalories := [(s.nextId, dietTotal ch)],
          nextId := s.nextId + 1 } := by
  simp [get_meals_route, ht, hds, hm, hc, dietTotal]

theorem getMeals_result_diet (ch : MealChoice) (s : Store) (d : ℕ)
    (ht : ¬(s.userCalories.head?).isNone = true) (hds : s.diets = [d])
    (hall : ∀ r ∈ s.dietMeals, r.user_current_diet_id = d)
    (hcall : ∀ p ∈ s.dietCalories, p.1 = d) :
    (get_meals_route ch s).2 =
      { s with
          diets := [d],
          dietMeals :=
            [⟨d, ch.breakfast.meal.id, ch.breakfast.serving⟩,
             ⟨d, ch.lunch.meal.id, ch.lunch.serving⟩,
             ⟨d, ch.dinner.meal.id, ch.dinner.serving⟩],
          dietCalories := [(d, dietTotal ch)] } := by
  simp only [get_meals_route, ht, hds]
  simp [dietTotal, hds]
  exact ⟨fun a ha => hall a ha, fun a b hab => hcall (a, b) hab⟩

theorem dietInv_getMeals (ch : MealChoice) (s : Store) (h : DietInv s) :
    DietInv (get_meals_route ch s).2 := by
  obtain ⟨h1, h2⟩ := h
  by_cases ht : (s.userCalories.head?).isNone
  · exact ⟨by simpa [get_meals_route, ht] using h1,
      by simpa [get_meals_route, ht] using h2⟩
  · rcases hds : s.diets with _ | ⟨d, rest⟩
    · rw [hds] at h2
      obtain ⟨hm, hc⟩ := h2
      rw [getMeals_result_nodiet ch s ht hds hm hc]
      exact ⟨h1, by simp, by simp, by simp, by simp⟩
    · rcases rest with _ | ⟨d2, rest2⟩
      · rw [hds] at h2
        obtain ⟨hlen, hall, hclen, hcall⟩ := h2
        rw [getMeals_result_diet ch s d ht hds hall hcall]
        exact ⟨h1, by simp, by simp, by simp, by simp⟩
      · rw [hds] at h2
        exact h2.elim

theorem dietInv_runOps (ops : List Op) :
    ∀ s : Store, DietInv s → DietInv (runOps ops s) := by
  induction ops with
  | nil => exact fun s h => h
  | cons op ops ih =>
    intro s h
    cases op with
    | getCalories c => exact ih _ (dietInv_getCalories c s h)
    | getMeals ch => exact ih _ (dietInv_getMeals ch s h)

theorem dietInv_diets_length (s : Store) (h : DietInv s) : s.diets.length ≤ 1 := by
  rcases hds : s.diets with _ | ⟨d, _ | ⟨d2, rest⟩⟩
  · simp
  · simp
  · have h2 := h.2
    rw [hds] at h2
    exact h2.elim

theorem dietInv_children (s : Store) (h : DietInv s) :
    ∀ d ∈ s.diets,
      (s.dietMeals.filter (fun r => r.user_current_diet_id = d)).length = 3 ∧
      (s.dietCalories.filter (fun p => p.1 = d)).length = 1 := by
  intro d hd
  have h2 := h.2
  rcases hds : s.diets with _ | ⟨d0, _ | ⟨d1, rest⟩⟩ <;> rw [hds] at h2
  · rw [hds] at hd
    exact absurd hd (List.not_mem_nil d)
  · rw [hds] at hd
    obtain ⟨hlen, hall, hclen, hcall⟩ := h2
    have hdd : d = d0 := by simpa using hd
    subst hdd
    constructor
    · rw [List.filter_eq_self.mpr fun a ha => by simpa using hall a ha, hlen]
    · rw [List.filter_eq_self.mpr fun a ha => by simpa using hcall a ha, hclen]
  · exact h2.elim

theorem getMeals_counts (ch : MealChoice) (s : Store) (h : DietInv s)
    (ht : s.userCalories ≠ []) :
    (get_meals_route ch s).2.diets.length = 1 ∧
    (get_meals_route ch s).2.dietMeals.length = 3 ∧
    (get_meals_route ch s).2.dietCalories.length = 1 := by
  obtain ⟨h1, h2⟩ := h
  have ht' : ¬(s.userCalories.head?).isNone = true := head?_not_isNone ht
  rcases hds : s.diets with _ | ⟨d, rest⟩
  · rw [hds] at h2
    obtain ⟨hm, hc⟩ := h2
    rw [getMeals_result_nodiet ch s ht' hds hm hc]
    exact ⟨by simp, by simp, by simp⟩
  · rcases rest with _ | ⟨d2, rest2⟩
    · rw [hds] at h2
      obtain ⟨hlen, hall, hclen, hcall⟩ := h2
      rw [getMeals_result_diet ch s d ht' hds hall hcall]
      exact ⟨by simp, by simp, by simp⟩
    · rw [hds] at h2
      exact h2.elim

/-- C3: after any sequence of `/get-calories` and `/get-meals` requests
starting from an empty store, the user has at most one `UserCalories` row
and at most one `UserCurrentDiet` row, and every existing diet owns
exactly three `UserCurrentDietMeals` rows and one `DietCalories` row;
moreover appending a target computation followed by two diet replacements
to any such sequence leaves exactly one diet with exactly three meal rows
and one total row (no accumulation). -/
theorem diet_replacement_invariant (ops : List Op) (c : ℤ) (m1 m2 : MealChoice) :
    ((runOps ops Store.init).userCalories.length ≤ 1 ∧
     (runOps ops Store.init).diets.length ≤ 1 ∧
     ∀ d ∈ (runOps ops Store.init).diets,
       ((runOps ops Store.init).dietMeals.filter
          (fun r => r.user_current_diet_id = d)).length = 3 ∧
       ((runOps ops Store.init).dietCalories.filter (fun p => p.1 = d)).length = 1) ∧
    ((runOps (ops ++ [.getCalories c, .getMeals m1, .getMeals m2]) Store.init).diets.length = 1 ∧
     (runOps (ops ++ [.getCalories c, .getMeals m1, .getMeals m2]) Store.init).dietMeals.length = 3 ∧
     (runOps (ops ++ [.getCalories c, .getMeals m1, .getMeals m2]) Store.init).dietCalories.length = 1) := by
  have hinv : DietInv (runOps ops Store.init) := dietInv_runOps ops _ dietInv_init
  constructor
  · exact ⟨hinv.1, dietInv_diets_length _ hinv, dietInv_children _ hinv⟩
  · have happ : runOps (ops ++ [.getCalories c, .getMeals m1, .getMeals m2]) Store.init =
        (get_meals_route m2
          (get_meals_route m1 (get_calories_route c (runOps ops Store.init)).2).2).2 := by
      rw [runOps, List.foldl_append]
      rfl
    rw [happ]
    have hinv1 : DietInv (get_calories_route c (runOps ops Store.init)).2 :=
      dietInv_getCalories c _ hinv
    have hinv2 : DietInv
        (get_meals_route m1 (get_calories_route c (runOps ops Store.init)).2).2 :=
      dietInv_getMeals m1 _ hinv1
    have ht2 : (get_meals_route m1
        (get_calories_route c (runOps ops Store.init)).2).2.userCalories ≠ [] := by
      rw [getMeals_userCalories, get_calories_userCalories]
      simp
    exact getMeals_counts m2 _ hinv2 ht2

/-- C4: whenever `/get-meals` assembles a diet (a calorie target exists),
the stored `DietCalories` row carries exactly the sum over the three slots
of meal calories times serving size. -/
theorem get_meals_diet_calories_total (ch : MealChoice) (s : Store)
    (h : DietInv s) (ht : s.userCalories ≠ []) :
    ∃ dietId, (get_meals_route ch s).2.dietCalories =
      [(dietId,
        ch.breakfast.meal.calories * ch.breakfast.serving
          + ch.lunch.meal.calories * ch.lunch.serving
          + ch.dinner.meal.calories * ch.dinner.serving)] := by
  obtain ⟨h1, h2⟩ := h
  have ht' : ¬(s.userCalories.head?).isNone = true := head?_not_isNone ht
  rcases hds : s.diets with _ | ⟨d, rest⟩
  · rw [hds] at h2
    obtain ⟨hm, hc⟩ := h2
    exact ⟨s.nextId, by rw [getMeals_result_nodiet ch s ht' hds hm hc]; rfl⟩
  · rcases rest with _ | ⟨d2, rest2⟩
    · rw [hds] at h2
      obtain ⟨hlen, hall, hclen, hcall⟩ := h2
      exact ⟨d, by rw [getMeals_result_diet ch s d ht' hds hall hcall]; rfl⟩
    · rw [hds] at h2
      exact h2.elim

/-- Witness for C4 at a concrete store holding a target and no diet. -/
theorem get_meals_diet_calories_total_witness :
    ∃ dietId,
      (get_meals_route ⟨⟨⟨1, 300⟩, 2⟩, ⟨⟨2, 500⟩, 1⟩, ⟨⟨3, 400⟩, 3/2⟩⟩
          ⟨[2000], [], [], [], [], [], 0⟩).2.dietCalories =
        [(dietId, (300 : ℚ) * 2 + 500 * 1 + 400 * (3/2))] :=
  get_meals_diet_calories_total _ _ ⟨by decide, by decide, by decide⟩ (by decide)

/-- C5: behaviour of the three missing-precondition states.  `/save-meal`
with no current diet raises `AttributeError` (dereferencing `None.id`)
instead of redirecting, and persists nothing; `/show-calories` with no
calorie target flashes but then raises `BuildError` because the redirect
names the unregistered endpoint `show-meals`; `/get-meals` with no target
redirects to `/get-calories` without any flash notice, persisting nothing. -/
theorem missing_precondition_behavior :
    (save_calories_route 10 5 1 ⟨[2000], [], [], [], [], [], 0⟩ =
      (.error "AttributeError: NoneType object has no attribute id",
       ⟨[2000], [], [], [], [], [], 0⟩)) ∧
    (show_calories_route none 10 ⟨[], [], [], [], [], [], 0⟩ =
      (.error "BuildError: could not build url for endpoint show-meals",
       ⟨[], [], [], [], [], [], 0⟩)) ∧
    (get_meals_route ⟨⟨⟨1, 100⟩, 1⟩, ⟨⟨2, 200⟩, 1⟩, ⟨⟨3, 300⟩, 1⟩⟩
        ⟨[], [], [], [], [], [], 0⟩ =
      (.redirect "get_calories" [], ⟨[], [], [], [], [], [], 0⟩)) := by
  exact ⟨by decide, by decide, by decide⟩

/-- C6: for every named window of each chart, the handler filters the
user's sample log to the rows with timestamp at least `now` minus the
window width (7/14/21/30 days for both charts, plus 90/180/365 days for
weight), keeps them in log order, and emits parallel month/day label and
value sequences. -/
theorem history_window_query (tfc tfw : String) (dc dw : ℚ) (now : ℚ)
    (s : Store)
    (hc : caloriesWindowDays (some tfc) = some dc)
    (hw : weightWindowDays (some tfw) = some dw)
    (htarget : s.userCalories ≠ [])
    (hsc : s.caloriesLog.Pairwise (fun a b => a.ord ≤ b.ord))
    (hsw : s.weightLog.Pairwise (fun a b => a.ord ≤ b.ord))
    (hne : s.caloriesLog.filter (fun r => now - dc ≤ r.ord) ≠ []) :
    (caloriesWindowDays (some "1 Week") = some 7 ∧
     caloriesWindowDays (some "2 Weeks") = some 14 ∧
     caloriesWindowDays (some "3 Weeks") = some 21 ∧
     caloriesWindowDays (some "1 Month") = some 30 ∧
     weightWindowDays (some "3 Months") = some 90 ∧
     weightWindowDays (some "6 Months") = some 180 ∧
     weightWindowDays (some "1 Year") = some 365) ∧
    show_calories_route (some tfc) now s =
      (.chart "calories_over_time"
        ((s.caloriesLog.filter (fun r => now - dc ≤ r.ord)).map
          (fun r => (r.month, r.day)))
        ((s.caloriesLog.filter (fun r => now - dc ≤ r.ord)).map
          (fun r => r.value)), s) ∧
    (∀ r : Sample, r ∈ s.caloriesLog.filter (fun r => now - dc ≤ r.ord) ↔
      r ∈ s.caloriesLog ∧ now - dc ≤ r.ord) ∧
    (s.caloriesLog.filter (fun r => now - dc ≤ r.ord)).Pairwise
      (fun a b => a.ord ≤ b.ord) ∧
    show_weight_route (some tfw) now s =
      (.chart "weight_over_time"
        ((s.weightLog.filter (fun r => now - dw ≤ r.ord)).map
          (fun r => (r.month, r.day)))
        ((s.weightLog.filter (fun r => now - dw ≤ r.ord)).map
          (fun r => r.value)), s) ∧
    (∀ r : Sample, r ∈ s.weightLog.filter (fun r => now - dw ≤ r.ord) ↔
      r ∈ s.weightLog ∧ now - dw ≤ r.ord) ∧
    (s.weightLog.filter (fun r => now - dw ≤ r.ord)).Pairwise
      (fun a b => a.ord ≤ b.ord) := by
  have ht' : ¬(s.userCalories.head?).isNone = true := head?_not_isNone htarget
  refine ⟨⟨rfl, rfl, rfl, rfl, rfl, rfl, rfl⟩, ?_, ?_, ?_, ?_, ?_, ?_⟩
  · simp [show_calories_route, ht', hc, hne]
    intro hall
    exfalso
    apply hne
    rw [List.filter_eq_nil_iff]
    intro a ha
    simp only [decide_eq_true_iff, not_le]
    linarith [hall a ha]
  · intro r
    simp [List.mem_filter]
  · exact List.Pairwise.sublist (List.filter_sublist _) hsc
  · simp [show_weight_route, hw]
  · intro r
    simp [List.mem_filter]
  · exact List.Pairwise.sublist (List.filter_sublist _) hsw

/-- Witness for C6: both charts evaluated at a concrete store with one
in-window calorie sample and one weight sample. -/
theorem history_window_query_witness :
    show_calories_route (some "1 Week") 10
        ⟨[2000], [], [], [], [⟨5, 3, 14, 1800⟩], [⟨1, 3, 10, 70⟩], 0⟩ =
      (.chart "calories_over_time" [(3, 14)] [1800],
       ⟨[2000], [], [], [], [⟨5, 3, 14, 1800⟩], [⟨1, 3, 10, 70⟩], 0⟩) ∧
    show_weight_route (some "1 Year") 10
        ⟨[2000], [], [], [], [⟨5, 3, 14, 1800⟩], [⟨1, 3, 10, 70⟩], 0⟩ =
      (.chart "weight_over_time" [(3, 10)] [70],
       ⟨[2000], [], [], [], [⟨5, 3, 14, 1800⟩], [⟨1, 3, 10, 70⟩], 0⟩) := by
  have h := history_window_query "1 Week" "1 Year" 7 365 10
    ⟨[2000], [], [], [], [⟨5, 3, 14, 1800⟩], [⟨1, 3, 10, 70⟩], 0⟩
    rfl rfl (by decide) (by decide) (by decide) (by norm_num [List.filter_cons])
  refine ⟨h.2.1.trans ?_, h.2.2.2.2.1.trans ?_⟩
  · norm_num [List.filter_cons]
  · norm_num [List.filter_cons]

/-- C7: a window holding no samples.  The weight chart renders empty label
and value sequences without failing and leaves the store unchanged, and
this state is distinguishable from the no-target case; but the calorie
chart, after flashing the empty-period notice, raises `BuildError` because
its redirect names the unregistered endpoint `show-calories`. -/
theorem empty_window_behavior :
    (show_calories_route (some "1 Week") 100 ⟨[2000], [], [], [], [], [], 0⟩ =
      (.error "BuildError: could not build url for endpoint show-calories",
       ⟨[2000], [], [], [], [], [], 0⟩)) ∧
    (show_weight_route (some "1 Week") 100
        ⟨[2000], [], [], [], [], [⟨1, 1, 1, 70⟩], 0⟩ =
      (.chart "weight_over_time" [] [],
       ⟨[2000], [], [], [], [], [⟨1, 1, 1, 70⟩], 0⟩)) ∧
    (show_calories_route none 100 ⟨[], [], [], [], [], [], 0⟩ =
      (.error "BuildError: could not build url for endpoint show-meals",
       ⟨[], [], [], [], [], [], 0⟩)) := by
  refine ⟨by decide, ?_, by decide⟩
  norm_num [show_weight_route, weightWindowDays, List.filter_cons]

/-- C10: a POST to `/account` appends a weight sample exactly when the
submitted weight differs from the stored weight; an update that keeps the
weight (changing only the other profile fields) leaves the weight history
unchanged. -/
theorem account_post_weight_frame (f : AccountForm) (nowOrd : ℚ)
    (nowMonth nowDay : ℕ) (u : UserRec) (weightLog : List Sample) :
    (account_post f nowOrd nowMonth nowDay u weightLog).2 =
      if u.weight = some f.weight then weightLog
      else weightLog ++ [⟨nowOrd, nowMonth, nowDay, f.weight⟩] := by
  by_cases h : u.weight = some f.weight <;>
    simp [account_post, h]

/-- C8: when token verification yields `none` (invalid or expired), the
`/reset-password/<token>` handler flashes a notice, redirects to the
reset-request page, and leaves every stored password unchanged. -/
theorem reset_token_invalid_rejected (verify : String → Option ℕ)
    (token : String) (form_valid : Bool) (new_hash : String)
    (users : List Credential) (h : verify token = none) :
    reset_token_route verify false token form_valid new_hash users =
      (.redirect "reset_request" ["That is an invalid or expired token"], users) := by
  simp [reset_token_route, h, url_for, knownEndpoints]

/-- Witness for C8 at a concrete store and an always-failing verifier. -/
theorem reset_token_invalid_rejected_witness :
    reset_token_route (fun _ => none) false "badtoken" true "newhash" [⟨1, "oldhash"⟩] =
      (.redirect "reset_request" ["That is an invalid or expired token"],
       [⟨1, "oldhash"⟩]) :=
  reset_token_invalid_rejected _ _ _ _ _ rfl

end DietApp
